import Mathlib

/-!
Shallow embedding of the FIDUCEO MVIRI FCDR calibration & geometry engine
(`satpy/readers/mviri_l1b_fiduceo_nc.py`).

Modelling conventions:
* Floating-point values are modelled as `FpVal`: either a rational number or
  NaN.  IEEE infinities are not modelled; division by zero is mapped to NaN
  (the claims under study never hit an infinite intermediate).
* Transcendental primitives (`np.log`, `np.cos`, `np.deg2rad`, `np.pi`,
  `sampling_to_lfac_cfac`) are parameters of the embedded functions: the code
  under study only composes them, it does not define them.
* Labeled arrays (`xarray.DataArray`) are modelled as lists of rows together
  with explicit coordinate vectors where the code consults coordinates.
* Python exceptions are modelled with `Except`; the distinct raise sites get
  distinct error constructors.
-/

namespace Mviri

/-- A floating-point value: NaN or a (rational) number. -/
inductive FpVal
  | nan
  | fin (q : ℚ)
deriving DecidableEq, Repr

namespace FpVal

/-- NaN-propagating addition. -/
def fadd : FpVal → FpVal → FpVal
  | fin a, fin b => fin (a + b)
  | _, _ => nan

/-- NaN-propagating subtraction. -/
def fsub : FpVal → FpVal → FpVal
  | fin a, fin b => fin (a - b)
  | _, _ => nan

/-- NaN-propagating multiplication. -/
def fmul : FpVal → FpVal → FpVal
  | fin a, fin b => fin (a * b)
  | _, _ => nan

/-- NaN-propagating division; division by zero is abstracted to NaN. -/
def fdiv : FpVal → FpVal → FpVal
  | fin a, fin b => if b = 0 then nan else fin (a / b)
  | _, _ => nan

/-- `v > 0` as numpy evaluates it: NaN compares false. -/
def posB : FpVal → Bool
  | fin q => decide (0 < q)
  | nan => false

/-- `fabs v < 90` as numpy evaluates it: NaN compares false. -/
def absLt90 : FpVal → Bool
  | fin q => decide (|q| < 90)
  | nan => false

/-- Is this value NaN? -/
def isNaN : FpVal → Bool
  | nan => true
  | fin _ => false

/-- Lift a rational-to-rational primitive; NaN maps to NaN (numpy behaviour
of `cos`, `deg2rad` on NaN input). -/
def liftQ (f : ℚ → ℚ) : FpVal → FpVal
  | nan => nan
  | fin q => fin (f q)

/-- Lift a primitive that may itself produce NaN (e.g. `log` of a negative
number); NaN input maps to NaN. -/
def liftF (f : ℚ → FpVal) : FpVal → FpVal
  | nan => nan
  | fin q => f q

end FpVal

open FpVal

/-- A 2-D data array (list of rows). -/
abbrev Grid := List (List FpVal)

/-- Elementwise map over a 2-D array. -/
def mapGrid (f : FpVal → FpVal) (g : Grid) : Grid :=
  g.map (List.map f)

/-- Elementwise combination of two 2-D arrays. -/
def zipGrid (f : FpVal → FpVal → FpVal) : Grid → Grid → Grid :=
  List.zipWith (List.zipWith f)

/-- `arr.where(cond, nan)`: keep elements satisfying `cond`, replace the
rest with NaN. -/
def whereKeep (cond : FpVal → Bool) (g : Grid) : Grid :=
  mapGrid (fun v => if cond v then v else .nan) g

/-- Element at row `i`, column `j`. -/
def gElem (g : Grid) (i j : ℕ) : Option FpVal :=
  (g[i]?).bind (fun row => row[j]?)

theorem gElem_mapGrid (f : FpVal → FpVal) (g : Grid) (i j : ℕ) :
    gElem (mapGrid f g) i j = (gElem g i j).map f := by
  simp only [gElem, mapGrid, List.getElem?_map]
  cases g[i]? with
  | none => rfl
  | some row => simp [List.getElem?_map]

theorem getElem?_zipWith {α : Type} (f : α → α → α) (l₁ l₂ : List α) (i : ℕ) :
    (List.zipWith f l₁ l₂)[i]? =
      (l₁[i]?).bind (fun a => (l₂[i]?).map (fun b => f a b)) := by
  induction l₁ generalizing l₂ i with
  | nil => simp
  | cons a l₁' ih =>
    cases l₂ with
    | nil => simp
    | cons b l₂' =>
      cases i with
      | zero => simp
      | succ n => simpa using ih l₂' n

theorem gElem_zipGrid (f : FpVal → FpVal → FpVal) (g₁ g₂ : Grid) (i j : ℕ) :
    gElem (zipGrid f g₁ g₂) i j =
      (gElem g₁ i j).bind (fun a => (gElem g₂ i j).map (fun b => f a b)) := by
  simp only [gElem, zipGrid, getElem?_zipWith]
  cases h₁ : g₁[i]? with
  | none => rfl
  | some r₁ =>
    cases h₂ : g₂[i]? with
    | none =>
      simp only [Option.map_none', Option.bind_none, Option.some_bind]
      cases r₁[j]? <;> simp
    | some r₂ => simp [getElem?_zipWith]

/-! ## Channel calibration engine (`FiduceoMviriBase._calibrate` and the two
variant subclasses). -/

/-- Channels handled by the reader (`CHANNELS = ['VIS', 'WV', 'IR']`). -/
inductive Channel
  | VIS
  | WV
  | IR
deriving DecidableEq, Repr

/-- The two product variants (easy FCDR / full FCDR file handlers). -/
inductive Variant
  | Easy
  | Full
deriving DecidableEq, Repr

/-- Calibration levels a dataset request can carry. -/
inductive CalibLevel
  | counts
  | radiance
  | reflectance
  | brightness_temperature
deriving DecidableEq, Repr

/-- Errors raised by the calibration dispatch.  `cannotCalibrate` models the
`ValueError` raised by the easy FCDR VIS path ("Cannot calibrate to ...");
`invalidCalibration` models the `KeyError('Invalid calibration: ...')`
raised by the remaining dispatchers.  Both represent the specification's
`InvalidCalibrationError` (an illegal calibration request). -/
inductive CalibError
  | cannotCalibrate (level : CalibLevel)
  | invalidCalibration (level : CalibLevel)
deriving DecidableEq, Repr

/-- Scene data consumed by the calibration engine: the calibration
coefficients read from the netCDF file, the external numeric primitives and
the solar-zenith-angle grid delivered by `_get_angles` (tie-point
interpolation is modelled separately). -/
structure CalibContext where
  a_wv : ℚ
  b_wv : ℚ
  bt_a_wv : ℚ
  bt_b_wv : ℚ
  a_ir : ℚ
  b_ir : ℚ
  bt_a_ir : ℚ
  bt_b_ir : ℚ
  years_since_launch : ℚ
  a0_vis : ℚ
  a1_vis : ℚ
  a2_vis : ℚ
  mean_count_space_vis : ℚ
  distance_sun_earth : ℚ
  solar_irradiance_vis : ℚ
  pi : ℚ
  log : ℚ → FpVal
  cos : ℚ → ℚ
  deg2rad : ℚ → ℚ
  sza : Grid

/-- `_get_coefs_ir_wv(channel, 'radiance')`: offset `a` and slope `b`. -/
def coefs_rad (ctx : CalibContext) : Channel → ℚ × ℚ
  | .WV => (ctx.a_wv, ctx.b_wv)
  | _ => (ctx.a_ir, ctx.b_ir)

/-- `_get_coefs_ir_wv(channel, 'brightness_temperature')`. -/
def coefs_bt (ctx : CalibContext) : Channel → ℚ × ℚ
  | .WV => (ctx.bt_a_wv, ctx.bt_b_wv)
  | _ => (ctx.bt_a_ir, ctx.bt_b_ir)

/-- `_ir_wv_counts_to_radiance`: `rad = a + b * counts`, then
`rad.where(rad > 0, nan)`. -/
def ir_wv_counts_to_radiance (a b : ℚ) (counts : Grid) : Grid :=
  let rad := mapGrid (fun c => fadd (.fin a) (fmul (.fin b) c)) counts
  whereKeep posB rad

/-- `_ir_wv_radiance_to_brightness_temperature`:
`bt = b / (log(rad) - a)`, then `bt.where(bt > 0, nan)`. -/
def ir_wv_radiance_to_brightness_temperature (log : ℚ → FpVal) (a b : ℚ)
    (rad : Grid) : Grid :=
  let bt := mapGrid (fun r => fdiv (.fin b) (fsub (liftF log r) (.fin a))) rad
  whereKeep posB bt

/-- `_calibrate_ir_wv`. -/
def calibrate_ir_wv (ctx : CalibContext) (channel : Channel)
    (calibration : CalibLevel) (ds : Grid) : Except CalibError Grid :=
  match calibration with
  | .counts => .ok ds
  | .radiance =>
      .ok (ir_wv_counts_to_radiance (coefs_rad ctx channel).1
        (coefs_rad ctx channel).2 ds)
  | .brightness_temperature =>
      let rad := ir_wv_counts_to_radiance (coefs_rad ctx channel).1
        (coefs_rad ctx channel).2 ds
      .ok (ir_wv_radiance_to_brightness_temperature ctx.log
        (coefs_bt ctx channel).1 (coefs_bt ctx channel).2 rad)
  | .reflectance => .error (.invalidCalibration .reflectance)

/-- The VIS calibration coefficient `a_cf`, a quadratic polynomial in years
since launch (`_vis_counts_to_radiance`). -/
def a_cf (ctx : CalibContext) : ℚ :=
  ctx.a0_vis + ctx.a1_vis * ctx.years_since_launch +
    ctx.a2_vis * ctx.years_since_launch ^ 2

/-- `FiduceoMviriFullFcdrFileHandler._vis_counts_to_radiance`:
`rad = (counts - mean_count_space_vis) * a_cf`, then
`rad.where(rad > 0, nan)`. -/
def vis_counts_to_radiance (ctx : CalibContext) (counts : Grid) : Grid :=
  let rad := mapGrid
    (fun c => fmul (fsub c (.fin ctx.mean_count_space_vis)) (.fin (a_cf ctx)))
    counts
  whereKeep posB rad

/-- The zenith-angle mask of `_vis_radiance_to_reflectance`:
`sza.where(fabs(sza) < 90, nan)` (direct illumination only). -/
def maskDirectIllumination (sza : Grid) : Grid :=
  whereKeep absLt90 sza

/-- `FiduceoMviriFullFcdrFileHandler._vis_radiance_to_reflectance`:
`refl = (pi * distance_sun_earth**2) / (solar_irradiance_vis * cos(deg2rad(sza_masked))) * rad`,
then conversion to percent. -/
def vis_radiance_to_reflectance (ctx : CalibContext) (rad : Grid) : Grid :=
  let sza := maskDirectIllumination ctx.sza
  let cos_sza := mapGrid (liftQ (fun q => ctx.cos (ctx.deg2rad q))) sza
  let refl := zipGrid
    (fun c r =>
      fmul (fdiv (.fin (ctx.pi * ctx.distance_sun_earth ^ 2))
        (fmul (.fin ctx.solar_irradiance_vis) c)) r)
    cos_sza rad
  mapGrid (fun v => fmul v (.fin 100)) refl

/-- `FiduceoMviriEasyFcdrFileHandler._calibrate_vis`. -/
def calibrate_vis_easy (calibration : CalibLevel) (ds : Grid) :
    Except CalibError Grid :=
  match calibration with
  | .reflectance => .ok (mapGrid (fun v => fmul (.fin 100) v) ds)
  | .counts => .error (.cannotCalibrate .counts)
  | .radiance => .error (.cannotCalibrate .radiance)
  | .brightness_temperature => .error (.invalidCalibration .brightness_temperature)

/-- `FiduceoMviriFullFcdrFileHandler._calibrate_vis`. -/
def calibrate_vis_full (ctx : CalibContext) (calibration : CalibLevel)
    (ds : Grid) : Except CalibError Grid :=
  match calibration with
  | .counts => .ok ds
  | .radiance => .ok (vis_counts_to_radiance ctx ds)
  | .reflectance =>
      .ok (vis_radiance_to_reflectance ctx (vis_counts_to_radiance ctx ds))
  | .brightness_temperature => .error (.invalidCalibration .brightness_temperature)

/-- `FiduceoMviriBase._calibrate`: dispatch on channel, then variant. -/
def calibrate (variant : Variant) (ctx : CalibContext) (channel : Channel)
    (calibration : CalibLevel) (ds : Grid) : Except CalibError Grid :=
  match channel with
  | .VIS =>
      match variant with
      | .Easy => calibrate_vis_easy calibration ds
      | .Full => calibrate_vis_full ctx calibration ds
  | .WV => calibrate_ir_wv ctx .WV calibration ds
  | .IR => calibrate_ir_wv ctx .IR calibration ds

/-- Legality table of the specification (§3): Full supports counts,
radiance and reflectance/brightness-temperature for all channels; Easy
supports the same for WV/IR but only reflectance for VIS; reflectance is
legal only for VIS and brightness temperature only for WV/IR. -/
def legalCalibration (channel : Channel) (variant : Variant)
    (level : CalibLevel) : Bool :=
  match channel, variant, level with
  | .VIS, .Full, .counts => true
  | .VIS, .Full, .radiance => true
  | .VIS, _, .reflectance => true
  | .WV, _, .counts | .IR, _, .counts => true
  | .WV, _, .radiance | .IR, _, .radiance => true
  | .WV, _, .brightness_temperature | .IR, _, .brightness_temperature => true
  | _, _, _ => false

/-! ## Quality mask evaluator (`_check_vis_quality`, `_mask_vis`) and the
VIS branch of `_get_channel`. -/

/-- The warning text issued by `_check_vis_quality` (adjacent string
literals concatenated, as in the source). -/
def visQualityWarning : String :=
  "All pixels of the VIS channel are flagged as \"use with " ++
  "caution\". Use datasets \"quality_pixel_bitmask\" and " ++
  "\"data_quality_bitmask\" to find out why."

/-- `_check_vis_quality`: bitwise-AND the quality bitmask with 2 and warn if
every element is nonzero.  Returns the warning text, if one is issued; the
data array itself is not an input, so it cannot be modified. -/
def check_vis_quality (qmask : List (List ℕ)) : Option String :=
  if qmask.all (fun row => row.all (fun v => v &&& 2 ≠ 0)) then
    some visQualityWarning
  else
    none

/-- `_mask_vis`: `ds.where(mask == 0, nan)`. -/
def mask_vis (ds : Grid) (qmask : List (List ℕ)) : Grid :=
  List.zipWith (fun drow mrow =>
    List.zipWith (fun v m => if m = 0 then v else FpVal.nan) drow mrow)
    ds qmask

/-- The VIS quality handling of `_get_channel`: if `mask_bad_quality` is
set, mask the data; otherwise leave the data untouched and run the quality
check.  Returns the (possibly masked) data and the warning, if any. -/
def vis_quality_step (mask_bad_quality : Bool) (ds : Grid)
    (qmask : List (List ℕ)) : Grid × Option String :=
  if mask_bad_quality then
    (mask_vis ds qmask, none)
  else
    (ds, check_vis_quality qmask)

/-! ## Geolocation/area builder (`get_area_def`). -/

/-- `EQUATOR_RADIUS` ([Handbook] section 5.2.1). -/
def EQUATOR_RADIUS : ℚ := 6378140

/-- `POLE_RADIUS`. -/
def POLE_RADIUS : ℚ := 6356755

/-- `ALTITUDE = 42164000.0 - EQUATOR_RADIUS`. -/
def ALTITUDE : ℚ := 42164000 - EQUATOR_RADIUS

/-- `MVIRI_FIELD_OF_VIEW` ([Handbook] section 5.3.2.1). -/
def MVIRI_FIELD_OF_VIEW : ℚ := 18

/-- The projection parameter dictionary assembled by `get_area_def` (the
fields handed to the external `_geos_area` collaborator). -/
structure ProjParams where
  ssp_lon : ℚ
  a : ℚ
  b : ℚ
  h : ℚ
  loff : ℚ
  coff : ℚ
  lfac : ℚ
  cfac : ℚ
  nlines : ℕ
  ncols : ℕ
  scandir : String
  area_name : String
deriving DecidableEq, Repr

/-- `get_area_def` up to the hand-off to `get_area_extent` /
`get_area_definition`: offset and scale-factor computation and the fixed
constants.  `s2lc` models the external `sampling_to_lfac_cfac` primitive and
`d2r` models `np.deg2rad`. -/
def get_area_pdict (s2lc d2r : ℚ → ℚ) (projection_longitude : ℚ)
    (im_size : ℕ) (area_name : String) : ProjParams :=
  let loff : ℚ := im_size / 2 + 1 / 2
  let lfac : ℚ := s2lc (d2r MVIRI_FIELD_OF_VIEW / im_size)
  { ssp_lon := projection_longitude
    a := EQUATOR_RADIUS
    b := POLE_RADIUS
    h := ALTITUDE
    loff := loff - im_size
    coff := loff
    lfac := -lfac
    cfac := -lfac
    nlines := im_size
    ncols := im_size
    scandir := "S2N"
    area_name := area_name }

/-! ## Orbital parameters resolver (`_get_orbital_parameters`, `_get_ssp`). -/

/-- `np.nanmean` over the two sub-satellite-point samples: the mean of the
non-NaN entries, NaN when both are NaN. -/
def nanmean2 : FpVal → FpVal → FpVal
  | .fin a, .fin b => .fin ((a + b) / 2)
  | .fin a, .nan => .fin a
  | .nan, .fin b => .fin b
  | .nan, .nan => .nan

/-- `_get_ssp`: `nanmean` of the start/end samples; a missing variable
(`KeyError`, modelled as `none`) yields NaN. -/
def get_ssp (vstart vend : Option FpVal) : FpVal :=
  match vstart, vend with
  | some s, some e => nanmean2 s e
  | _, _ => .nan

/-- The orbital parameters record; `none` in the two `satellite_actual`
fields means the key is absent from the dictionary. -/
structure OrbitalParameters where
  projection_longitude : ℚ
  projection_latitude : ℚ
  projection_altitude : ℚ
  satellite_actual_longitude : Option ℚ
  satellite_actual_latitude : Option ℚ
deriving DecidableEq, Repr

/-- `_get_orbital_parameters`: the `satellite_actual_*` entries are added
iff neither sub-satellite coordinate is NaN. -/
def get_orbital_parameters (projection_longitude : ℚ)
    (lon_start lon_end lat_start lat_end : Option FpVal) : OrbitalParameters :=
  let ssp_lon := get_ssp lon_start lon_end
  let ssp_lat := get_ssp lat_start lat_end
  match ssp_lon, ssp_lat with
  | .fin ql, .fin qa =>
      { projection_longitude := projection_longitude
        projection_latitude := 0
        projection_altitude := ALTITUDE
        satellite_actual_longitude := some ql
        satellite_actual_latitude := some qa }
  | _, _ =>
      { projection_longitude := projection_longitude
        projection_latitude := 0
        projection_altitude := ALTITUDE
        satellite_actual_longitude := none
        satellite_actual_latitude := none }

/-! ## Tie-point interpolator (`_interp_tiepoints`). -/

/-- A 2-D labeled array with coordinate vectors (`x` along columns, `y`
along rows). -/
structure LArr2 where
  xc : List ℚ
  yc : List ℚ
  vals : Grid
deriving DecidableEq, Repr

/-- Python errors surfaced by the array library during tie-point
interpolation or acquisition-time handling. -/
inductive PyErr
  | zeroDivision
  | sliceStepZero
  | conflictingSizes
  | reindexNonUnique
deriving DecidableEq, Repr

/-- Elements of `l` whose index is `≡ 0 (mod s)`, phrased with a countdown
`k` to the next kept element (structural recursion, so it evaluates in the
kernel). -/
def everyNthAux {α : Type} (s : ℕ) : List α → ℕ → List α
  | [], _ => []
  | a :: rest, 0 => a :: everyNthAux s rest (s - 1)
  | _ :: rest, k + 1 => everyNthAux s rest k

/-- Python strided slice `l[::s]` for `s ≥ 1`: every `s`-th element. -/
def everyNth {α : Type} (s : ℕ) (l : List α) : List α :=
  everyNthAux s l 0

/-- 1-D linear interpolation over a list of (coordinate, value) pairs.
Between two consecutive tie points the value is the linear blend; outside
the coordinate range the result is NaN (the interpolation primitive's
default fill). -/
def interp1p : List (ℚ × FpVal) → ℚ → FpVal
  | [], _ => .nan
  | [(c, v)], t => if t = c then v else .nan
  | (c₁, v₁) :: (c₂, v₂) :: rest, t =>
      if c₁ ≤ t ∧ t ≤ c₂ then
        fadd v₁ (fdiv (fmul (fsub v₂ v₁) (.fin (t - c₁))) (.fin (c₂ - c₁)))
      else
        interp1p ((c₂, v₂) :: rest) t

/-- 1-D interpolation of a value list `vs` with coordinates `cs` onto the
target coordinates `ts`. -/
def interpAxis (cs : List ℚ) (vs : List FpVal) (ts : List ℚ) : List FpVal :=
  ts.map (interp1p (cs.zip vs))

/-- Separable 2-D linear interpolation: first along `x` within each row,
then along `y` within each column. -/
def interp2 (xs ys : List ℚ) (vals : Grid) (tx ty : List ℚ) : Grid :=
  let rows := vals.map (fun row => interpAxis xs row tx)
  let cols := rows.transpose
  let colsI := cols.map (fun col => interpAxis ys col ty)
  colsI.transpose

/-- `_interp_tiepoints`: compute the sampling stride from the **x** axis
only, assign subsampled target coordinates as tie-point coordinates (which
the array library rejects when the count does not match the axis size), and
interpolate onto the full target coordinates. -/
def interp_tiepoints (ds : LArr2) (target_x target_y : List ℚ) :
    Except PyErr LArr2 :=
  if ds.xc.length = 0 then
    .error .zeroDivision
  else
    let sampling := target_x.length / ds.xc.length
    if sampling = 0 then
      .error .sliceStepZero
    else
      let nx := everyNth sampling target_x
      let ny := everyNth sampling target_y
      if nx.length = ds.xc.length ∧ ny.length = ds.yc.length then
        .ok ⟨target_x, target_y, interp2 nx ny ds.vals target_x target_y⟩
      else
        .error .conflictingSizes

/-! ## Acquisition time resolver (`_interp_acq_time`, `_get_acq_time`). -/

/-- Label lookup in an association list (the index selection performed by
`reindex`). -/
def lookupQ (lbl : ℚ) : List (ℚ × FpVal) → Option FpVal
  | [] => none
  | (c, v) :: rest => if lbl = c then some v else lookupQ lbl rest

/-- A 1-D labeled array (one value per `y` coordinate). -/
structure LArr1 where
  yc : List ℚ
  vals : List FpVal
deriving DecidableEq, Repr

/-- The 2-D per-pixel timestamp grid (`time` / `time_ir_wv`), one row per
`y_ir_wv` coordinate. -/
structure TimeGrid where
  yc : List ℚ
  vals : Grid
deriving DecidableEq, Repr

/-- Mean of one scanline of timestamps (`mean(dim='x_ir_wv')`): NaN for an
empty line or when any entry is NaN. -/
def rowMean (row : List FpVal) : FpVal :=
  fdiv (row.foldr fadd (.fin 0)) (.fin row.length)

/-- `_interp_acq_time`: average each scanline, then, if the target is
longer, repeat each timestamp `target_y.size // y.size` times
(`np.repeat` + `reindex`) and relabel with the target coordinates. -/
def interp_acq_time (time2d : TimeGrid) (target_y : List ℚ) :
    Except PyErr LArr1 :=
  let time : LArr1 := ⟨time2d.yc, time2d.vals.map rowMean⟩
  let y := time.yc
  if y.length < target_y.length then
    if y.length = 0 then
      .error .zeroDivision
    else if ¬ y.Nodup then
      .error .reindexNonUnique
    else
      let reps := target_y.length / y.length
      let y_rep := y.flatMap (List.replicate reps)
      let vals := y_rep.map (fun lbl => (lookupQ lbl (y.zip time.vals)).getD .nan)
      if vals.length = target_y.length then
        .ok ⟨target_y, vals⟩
      else
        .error .conflictingSizes
  else
    .ok time

/-- `HIGH_RESOL = 2250`. -/
def HIGH_RESOL : ℚ := 2250

/-- `_is_high_resol`. -/
def is_high_resol (resolution : ℚ) : Bool :=
  resolution = HIGH_RESOL

/-- The coordinate vectors and timestamp grid of an open file, as consumed
by `_get_acq_time`. -/
structure NcModel where
  x : List ℚ
  y : List ℚ
  x_ir_wv : List ℚ
  y_ir_wv : List ℚ
  time2d : TimeGrid
deriving DecidableEq, Repr

/-- `_get_acq_time`: pick the target coordinate vector for the requested
resolution (the source selects `coords['x']` / `coords['x_ir_wv']`) and
delegate to `_interp_acq_time`. -/
def get_acq_time (nc : NcModel) (resolution : ℚ) : Except PyErr LArr1 :=
  let target_y := if is_high_resol resolution then nc.x else nc.x_ir_wv
  interp_acq_time nc.time2d target_y

/-! ## Derived notions used by the verification. -/

/-- `v.where(v > 0, nan)` at a single element. -/
def maskPos (v : FpVal) : FpVal :=
  if posB v then v else .nan

/-- Did the call produce a value (no exception)? -/
def exceptOk {ε α : Type} : Except ε α → Bool
  | .ok _ => true
  | .error _ => false

/-- The IR/WV radiance formula as the specification words it:
`a + b × counts`, non-positive results replaced by NaN. -/
def irRadianceSpec (a b : ℚ) (c : FpVal) : FpVal :=
  maskPos (fadd (.fin a) (fmul (.fin b) c))

/-- The IR/WV brightness-temperature formula as the specification words it:
`b / (ln(radiance) − a)`, non-positive results replaced by NaN. -/
def irBtSpec (log : ℚ → FpVal) (a b : ℚ) (r : FpVal) : FpVal :=
  maskPos (fdiv (.fin b) (fsub (liftF log r) (.fin a)))

theorem whereKeep_mapGrid (cond : FpVal → Bool) (f : FpVal → FpVal) (g : Grid) :
    whereKeep cond (mapGrid f g) =
      mapGrid (fun v => if cond (f v) then f v else .nan) g := by
  simp [whereKeep, mapGrid, List.map_map, Function.comp]

theorem fsub_fin_neg_two (x : FpVal) : fsub x (.fin (-2)) = fadd x (.fin 2) := by
  cases x with
  | nan => rfl
  | fin q =>
    simp only [fsub, fadd, FpVal.fin.injEq]
    ring

/-- C4: IR/WV radiance is `a + b × counts` elementwise with non-positive
results replaced by NaN, and brightness temperature is
`b' / (ln(radiance) − a')` elementwise with non-positive results replaced
by NaN; IR counts `[[100, 200]]` with `a = -10`, `b = 0.5` yield radiance
`[[40, 90]]`, and with `bt_a = -2`, `bt_b = 1300` the brightness
temperature is `1300 / (ln(radiance) + 2)` elementwise (masked where
non-positive). -/
theorem c4_ir_wv_calibration_formulas :
    ∀ (log : ℚ → FpVal) (a b a' b' : ℚ) (counts rad : Grid),
      ir_wv_counts_to_radiance a b counts =
        mapGrid (irRadianceSpec a b) counts ∧
      ir_wv_radiance_to_brightness_temperature log a' b' rad =
        mapGrid (irBtSpec log a' b') rad ∧
      ir_wv_counts_to_radiance (-10) (1 / 2) [[.fin 100, .fin 200]] =
        [[.fin 40, .fin 90]] ∧
      ir_wv_radiance_to_brightness_temperature log (-2) 1300
          [[.fin 40, .fin 90]] =
        [[maskPos (fdiv (.fin 1300) (fadd (log 40) (.fin 2))),
          maskPos (fdiv (.fin 1300) (fadd (log 90) (.fin 2)))]] := by
  intro log a b a' b' counts rad
  refine ⟨?_, ?_, ?_, ?_⟩
  · exact whereKeep_mapGrid posB _ counts
  · exact whereKeep_mapGrid posB _ rad
  · norm_num [ir_wv_counts_to_radiance, whereKeep, mapGrid, fadd, fmul,
      posB]
  · simp only [ir_wv_radiance_to_brightness_temperature, whereKeep, mapGrid,
      List.map_cons, List.map_nil, liftF, fsub_fin_neg_two, maskPos]

/-- C9: the area builder computes `loff = coff = im_size / 2 + 0.5`, passes
`loff` as `offset − im_size` and `coff` as computed, negates both scale
factors derived from the fixed 18-degree field of view divided by
`im_size`, and uses the fixed equatorial radius, polar radius, altitude
and south-to-north scan direction. -/
theorem c9_area_geometry :
    ∀ (s2lc d2r : ℚ → ℚ) (lon : ℚ) (n : ℕ) (name : String),
      (get_area_pdict s2lc d2r lon n name).loff = ((n : ℚ) / 2 + 1 / 2) - n ∧
      (get_area_pdict s2lc d2r lon n name).coff = (n : ℚ) / 2 + 1 / 2 ∧
      (get_area_pdict s2lc d2r lon n name).lfac = -(s2lc (d2r 18 / n)) ∧
      (get_area_pdict s2lc d2r lon n name).cfac = -(s2lc (d2r 18 / n)) ∧
      (get_area_pdict s2lc d2r lon n name).a = 6378140 ∧
      (get_area_pdict s2lc d2r lon n name).b = 6356755 ∧
      (get_area_pdict s2lc d2r lon n name).h = 42164000 - 6378140 ∧
      (get_area_pdict s2lc d2r lon n name).scandir = "S2N" := by
  intro s2lc d2r lon n name
  exact ⟨rfl, rfl, rfl, rfl, rfl, rfl, rfl, rfl⟩

/-- C1: for every channel, variant and calibration level, if the level is
not legal for the `(channel, variant)` pair, `calibrate` fails with the
illegal-calibration error (the specification's `InvalidCalibrationError`,
covering both raise sites), for every input array; legal levels never
fail; in particular counts and radiance for VIS under Easy fail. -/
theorem c1_illegal_calibration_fails :
    ∀ (variant : Variant) (ctx : CalibContext) (channel : Channel)
      (level : CalibLevel) (ds : Grid),
      (legalCalibration channel variant level = false →
        ∃ e, calibrate variant ctx channel level ds = .error e) ∧
      (legalCalibration channel variant level = true →
        ∃ g, calibrate variant ctx channel level ds = .ok g) ∧
      calibrate .Easy ctx .VIS .counts ds = .error (.cannotCalibrate .counts) ∧
      calibrate .Easy ctx .VIS .radiance ds =
        .error (.cannotCalibrate .radiance) := by
  intro variant ctx channel level ds
  refine ⟨?_, ?_, rfl, rfl⟩ <;>
  · intro h
    cases channel <;> cases variant <;> cases level <;>
      simp_all [legalCalibration, calibrate, calibrate_vis_easy,
        calibrate_vis_full, calibrate_ir_wv]

/-- C1 witness: the illegal combination (VIS, Easy, counts) fails on a
concrete input array. -/
theorem c1_witness :
    legalCalibration .VIS .Easy .counts = false ∧
    ∃ e, calibrate .Easy
      { a_wv := 0, b_wv := 0, bt_a_wv := 0, bt_b_wv := 0, a_ir := 0,
        b_ir := 0, bt_a_ir := 0, bt_b_ir := 0, years_since_launch := 0,
        a0_vis := 0, a1_vis := 0, a2_vis := 0, mean_count_space_vis := 0,
        distance_sun_earth := 0, solar_irradiance_vis := 0, pi := 0,
        log := fun _ => .nan, cos := fun _ => 0, deg2rad := fun _ => 0,
        sza := [] } .VIS .counts [[.fin 1]] = .error e :=
  ⟨rfl, (c1_illegal_calibration_fails .Easy _ .VIS .counts [[.fin 1]]).1 rfl⟩

/-- C7: with masking disabled the VIS quality check warns (naming the
`quality_pixel_bitmask` and `data_quality_bitmask` datasets) iff every
pixel of the quality bitmask has bit value 2 set, and the data array is
returned unchanged; with masking enabled the check is not executed. -/
theorem c7_vis_quality_check :
    ∀ (ds : Grid) (qmask : List (List ℕ)),
      (vis_quality_step true ds qmask).1 = mask_vis ds qmask ∧
      (vis_quality_step true ds qmask).2 = none ∧
      (vis_quality_step false ds qmask).1 = ds ∧
      ((vis_quality_step false ds qmask).2 = some visQualityWarning ↔
        ∀ row ∈ qmask, ∀ v ∈ row, v &&& 2 ≠ 0) ∧
      (∃ p s, visQualityWarning = p ++ "quality_pixel_bitmask" ++ s) ∧
      (∃ p s, visQualityWarning = p ++ "data_quality_bitmask" ++ s) := by
  intro ds qmask
  refine ⟨rfl, rfl, rfl, ?_, ?_, ?_⟩
  · show check_vis_quality qmask = some visQualityWarning ↔ _
    rw [check_vis_quality]
    by_cases hc : qmask.all (fun row => row.all (fun v => v &&& 2 ≠ 0)) = true
    · rw [if_pos hc]
      simp only [Option.some.injEq, true_iff]
      simpa [List.all_eq_true] using hc
    · rw [if_neg hc]
      constructor
      · intro habs
        exact Option.noConfusion habs
      · intro hP
        exact absurd (by simpa [List.all_eq_true] using hP) hc
  · exact ⟨"All pixels of the VIS channel are flagged as \"use with caution\". Use datasets \"",
      "\" and \"data_quality_bitmask\" to find out why.", by decide⟩
  · exact ⟨"All pixels of the VIS channel are flagged as \"use with caution\". Use datasets \"quality_pixel_bitmask\" and \"",
      "\" to find out why.", by decide⟩

/-- Both sub-satellite-point samples of one coordinate exist and at least
one of them is a number (not NaN): exactly when `np.nanmean` of the pair is
not NaN. -/
def sampleAvailable (s e : Option FpVal) : Prop :=
  ∃ u v, s = some u ∧ e = some v ∧ (u.isNaN = false ∨ v.isNaN = false)

theorem get_ssp_fin_iff (s e : Option FpVal) :
    (∃ q, get_ssp s e = .fin q) ↔ sampleAvailable s e := by
  constructor
  · rintro ⟨q, hq⟩
    match s, e with
    | none, _ => exact absurd hq (by simp [get_ssp])
    | some u, none => exact absurd hq (by cases u <;> simp [get_ssp])
    | some u, some v =>
      refine ⟨u, v, rfl, rfl, ?_⟩
      cases u <;> cases v <;> simp_all [get_ssp, nanmean2, FpVal.isNaN]
  · rintro ⟨u, v, rfl, rfl, huv⟩
    cases u <;> cases v <;> simp_all [get_ssp, nanmean2, FpVal.isNaN]

/-- C3 counterexample: with a finite start-of-scan longitude sample and a
NaN end-of-scan longitude sample (both latitude samples finite), the claim
requires `satellite_actual_longitude` to be absent, but the code includes
it (with the value of the single non-NaN sample, not the mean of the two
samples): `np.nanmean` ignores NaN entries. -/
theorem c3_counterexample :
    (get_orbital_parameters 57 (some (.fin 57)) (some .nan)
      (some (.fin 0)) (some (.fin 0))).satellite_actual_longitude =
      some 57 := by
  decide

/-- C3 (amended): `projection_longitude`, `projection_latitude = 0` and
`projection_altitude` are always present; the `satellite_actual_*` fields
are present iff, for each coordinate, both the start and end samples exist
and at least one of the two is not NaN; their value is the NaN-ignoring
mean of the samples (the arithmetic mean only when both samples are
numbers). -/
theorem c3_orbital_parameters_amended :
    ∀ (plon : ℚ) (ls le bs be : Option FpVal),
      (get_orbital_parameters plon ls le bs be).projection_longitude = plon ∧
      (get_orbital_parameters plon ls le bs be).projection_latitude = 0 ∧
      (get_orbital_parameters plon ls le bs be).projection_altitude =
        ALTITUDE ∧
      ((get_orbital_parameters plon ls le bs be).satellite_actual_longitude
          ≠ none ↔ sampleAvailable ls le ∧ sampleAvailable bs be) ∧
      ((get_orbital_parameters plon ls le bs be).satellite_actual_latitude
          ≠ none ↔ sampleAvailable ls le ∧ sampleAvailable bs be) ∧
      (∀ ql qa, get_ssp ls le = .fin ql → get_ssp bs be = .fin qa →
        (get_orbital_parameters plon ls le bs be).satellite_actual_longitude
            = some ql ∧
        (get_orbital_parameters plon ls le bs be).satellite_actual_latitude
            = some qa) ∧
      (∀ a b : ℚ, nanmean2 (.fin a) (.fin b) = .fin ((a + b) / 2)) := by
  intro plon ls le bs be
  refine ⟨?_, ?_, ?_, ?_, ?_, ?_, fun a b => rfl⟩
  · unfold get_orbital_parameters
    cases get_ssp ls le <;> cases get_ssp bs be <;> rfl
  · unfold get_orbital_parameters
    cases get_ssp ls le <;> cases get_ssp bs be <;> rfl
  · unfold get_orbital_parameters
    cases get_ssp ls le <;> cases get_ssp bs be <;> rfl
  · rw [← get_ssp_fin_iff, ← get_ssp_fin_iff]
    unfold get_orbital_parameters
    cases get_ssp ls le <;> cases get_ssp bs be <;> simp
  · rw [← get_ssp_fin_iff, ← get_ssp_fin_iff]
    unfold get_orbital_parameters
    cases get_ssp ls le <;> cases get_ssp bs be <;> simp
  · intro ql qa hl ha
    unfold get_orbital_parameters
    rw [hl, ha]
    exact ⟨rfl, rfl⟩

/-- C3 witness: with both samples finite for both coordinates the actual
position fields are present and hold the means. -/
theorem c3_witness :
    get_ssp (some (.fin 10)) (some (.fin 20)) = .fin ((10 + 20) / 2) ∧
    get_ssp (some (.fin 0)) (some (.fin 0)) = .fin ((0 + 0) / 2) ∧
    (get_orbital_parameters 57 (some (.fin 10)) (some (.fin 20))
      (some (.fin 0)) (some (.fin 0))).satellite_actual_longitude =
      some ((10 + 20) / 2) :=
  ⟨rfl, rfl,
    ((c3_orbital_parameters_amended 57 (some (.fin 10)) (some (.fin 20))
      (some (.fin 0)) (some (.fin 0))).2.2.2.2.2.1 ((10 + 20) / 2)
      ((0 + 0) / 2) rfl rfl).1⟩

/-- A concrete scene context used by witnesses. -/
def ctx₀ : CalibContext where
  a_wv := 0
  b_wv := 0
  bt_a_wv := 0
  bt_b_wv := 0
  a_ir := -10
  b_ir := 1 / 2
  bt_a_ir := -2
  bt_b_ir := 1300
  years_since_launch := 0
  a0_vis := 1
  a1_vis := 0
  a2_vis := 0
  mean_count_space_vis := 50
  distance_sun_earth := 1
  solar_irradiance_vis := 1
  pi := 3
  log := fun _ => .nan
  cos := fun _ => 1
  deg2rad := fun q => q
  sza := [[.fin 90]]

/-- C8: wherever VIS/Full counts-to-radiance produced a number (not the
NaN mask), dividing the radiance by the polynomial gain `a_cf` and adding
the mean space count recovers the original count exactly (hence within any
floating-point tolerance); the surviving radiance is strictly positive. -/
theorem c8_vis_radiance_roundtrip :
    ∀ (ctx : CalibContext) (counts : Grid) (i j : ℕ) (r : ℚ),
      gElem (vis_counts_to_radiance ctx counts) i j = some (.fin r) →
      0 < r ∧ ∃ q : ℚ, gElem counts i j = some (.fin q) ∧
        r / a_cf ctx + ctx.mean_count_space_vis = q := by
  intro ctx counts i j r hr
  have h1 : gElem (vis_counts_to_radiance ctx counts) i j =
      ((gElem counts i j).map
        (fun c => fmul (fsub c (.fin ctx.mean_count_space_vis))
          (.fin (a_cf ctx)))).map
        (fun v => if posB v then v else .nan) := by
    show gElem (whereKeep posB (mapGrid _ counts)) i j = _
    rw [whereKeep, gElem_mapGrid, gElem_mapGrid]
  rw [h1] at hr
  cases hc : gElem counts i j with
  | none => rw [hc] at hr; exact absurd hr (by simp)
  | some c =>
    rw [hc] at hr
    cases c with
    | nan => exact absurd hr (by simp [fsub, fmul, posB])
    | fin q =>
      simp only [Option.map_some', fsub, fmul, posB, Option.some.injEq] at hr
      by_cases hpos : 0 < (q - ctx.mean_count_space_vis) * a_cf ctx
      · rw [if_pos (by simpa using hpos)] at hr
        have hval : (q - ctx.mean_count_space_vis) * a_cf ctx = r :=
          FpVal.fin.inj hr
        have hrpos : 0 < r := hval ▸ hpos
        have hacf : a_cf ctx ≠ 0 := by
          intro h0
          rw [h0, mul_zero] at hval
          exact absurd (hval ▸ hrpos) (lt_irrefl r)
        refine ⟨hrpos, q, rfl, ?_⟩
        rw [← hval, mul_div_cancel_right₀ _ hacf, sub_add_cancel]
      · rw [if_neg (by simpa using hpos)] at hr
        exact absurd hr (by simp)

/-- C8 witness: counts 52, mean space count 50, gain 1 give radiance 2;
the inversion recovers 52. -/
theorem c8_witness :
    gElem (vis_counts_to_radiance ctx₀ [[.fin 52]]) 0 0 = some (.fin 2) ∧
    (0 < (2 : ℚ) ∧ ∃ q : ℚ, gElem [[.fin 52]] 0 0 = some (.fin q) ∧
      2 / a_cf ctx₀ + ctx₀.mean_count_space_vis = q) := by
  have h : gElem (vis_counts_to_radiance ctx₀ [[.fin 52]]) 0 0 =
      some (.fin 2) := by
    norm_num [vis_counts_to_radiance, whereKeep, mapGrid, gElem, fsub, fmul,
      posB, a_cf, ctx₀]
  exact ⟨h, c8_vis_radiance_roundtrip ctx₀ [[.fin 52]] 0 0 2 h⟩

/-- C5: in VIS/Full reflectance calibration every pixel with
`|zenith| ≥ 90°` is masked to NaN before the cosine (and the reflectance at
that pixel is NaN), with strict comparison: exactly 90° is masked while
89.999° is not. -/
theorem c5_solar_zenith_masking :
    ∀ (ctx : CalibContext) (rad : Grid) (i j : ℕ) (q : ℚ) (r : FpVal),
      gElem ctx.sza i j = some (.fin q) →
      gElem rad i j = some r →
      (90 ≤ |q| →
        gElem (maskDirectIllumination ctx.sza) i j = some .nan ∧
        gElem (vis_radiance_to_reflectance ctx rad) i j = some .nan) ∧
      (|q| < 90 →
        gElem (maskDirectIllumination ctx.sza) i j = some (.fin q)) ∧
      maskDirectIllumination [[.fin 90]] = [[.nan]] ∧
      maskDirectIllumination [[.fin (89999 / 1000)]] =
        [[.fin (89999 / 1000)]] := by
  intro ctx rad i j q r hsza hrad
  have hmask : gElem (maskDirectIllumination ctx.sza) i j =
      some (if absLt90 (.fin q) then .fin q else .nan) := by
    rw [maskDirectIllumination, whereKeep, gElem_mapGrid, hsza]
    rfl
  refine ⟨?_, ?_, ?_, ?_⟩
  · intro hq
    have hlt : absLt90 (.fin q) = false := by
      simp [absLt90, not_lt.mpr hq]
    have hm : gElem (maskDirectIllumination ctx.sza) i j = some .nan := by
      rw [hmask, hlt]
      rfl
    refine ⟨hm, ?_⟩
    show gElem (mapGrid (fun v => fmul v (.fin 100))
      (zipGrid _ (mapGrid (liftQ _) (maskDirectIllumination ctx.sza)) rad))
        i j = some .nan
    rw [gElem_mapGrid, gElem_zipGrid, gElem_mapGrid, hm, hrad]
    cases r <;> simp [liftQ, fmul, fdiv]
  · intro hq
    have hlt : absLt90 (.fin q) = true := by
      simp [absLt90, hq]
    rw [hmask, hlt]
    rfl
  · norm_num [maskDirectIllumination, whereKeep, mapGrid, absLt90, abs]
  · norm_num [maskDirectIllumination, whereKeep, mapGrid, absLt90, abs]

/-- C5 witness: a zenith angle of exactly 90° with radiance 1 yields a NaN
reflectance pixel. -/
theorem c5_witness :
    gElem ctx₀.sza 0 0 = some (.fin 90) ∧
    gElem [[.fin 1]] 0 0 = some (.fin 1) ∧
    gElem (vis_radiance_to_reflectance ctx₀ [[.fin 1]]) 0 0 = some .nan :=
  ⟨rfl, rfl,
    ((c5_solar_zenith_masking ctx₀ [[.fin 1]] 0 0 90 (.fin 1) rfl rfl).1
      (by norm_num)).2⟩

theorem everyNthAux_length_le {α : Type} (s : ℕ) (hs : 1 ≤ s) :
    ∀ (l : List α) (k : ℕ), k < s →
      l.length ≤ s * (everyNthAux s l k).length + k := by
  intro l
  induction l with
  | nil =>
    intro k _
    simp [everyNthAux]
  | cons a rest ih =>
    intro k hk
    cases k with
    | zero =>
      have h1 := ih (s - 1) (by omega)
      simp only [everyNthAux, List.length_cons, Nat.mul_succ]
      omega
    | succ k' =>
      have h1 := ih k' (by omega)
      simp only [everyNthAux, List.length_cons]
      omega

theorem everyNth_length_le {α : Type} (s : ℕ) (hs : 1 ≤ s) (l : List α) :
    l.length ≤ s * (everyNth s l).length := by
  simpa [everyNth] using everyNthAux_length_le s hs l 0 hs

/-- C2 counterexample: a coarse 2×2 grid, a length-4 `target_x` and a
length-3 `target_y` (3 is not a multiple of the coarse y-size 2).  The
claim requires failure, but the interpolation succeeds: the stride is
computed from `target_x` only and `target_y[::2]` happens to have the
required 2 elements. -/
theorem c2_counterexample :
    ¬ ((2 : ℕ) ∣ 3) ∧
    exceptOk (interp_tiepoints
      ⟨[0, 1], [0, 1], [[.fin 1, .fin 2], [.fin 3, .fin 4]]⟩
      [0, 1, 2, 3] [0, 1, 2]) = true := by
  exact ⟨by decide, by decide⟩

/-- C2 (amended): if `target_x.size` is not an exact integer multiple of
the coarse grid's x-axis size, tie-point interpolation fails with an error
(the array library's zero-step / conflicting-sizes error, the
specification's `GeometryMismatchError`) rather than producing a result.
A non-multiple `target_y.size` alone does not guarantee failure. -/
theorem c2_x_mismatch_fails :
    ∀ (ds : LArr2) (target_x target_y : List ℚ),
      ¬ (ds.xc.length ∣ target_x.length) →
      ∃ e, interp_tiepoints ds target_x target_y = .error e := by
  intro ds target_x target_y hnd
  simp only [interp_tiepoints]
  split_ifs with h0 hs hl
  · exact ⟨_, rfl⟩
  · exact ⟨_, rfl⟩
  · exfalso
    have hs1 : 1 ≤ target_x.length / ds.xc.length :=
      Nat.one_le_iff_ne_zero.mpr hs
    have hub := everyNth_length_le _ hs1 target_x
    rw [hl.1] at hub
    have hlb : target_x.length / ds.xc.length * ds.xc.length ≤
        target_x.length := Nat.div_mul_le_self _ _
    have heq : target_x.length / ds.xc.length * ds.xc.length =
        target_x.length := le_antisymm hlb hub
    exact hnd ⟨target_x.length / ds.xc.length,
      heq.symm.trans (mul_comm _ _)⟩
  · exact ⟨_, rfl⟩

/-- C2 witness for the amended theorem: coarse x-size 2, `target_x` of
size 5 (not a multiple) fails. -/
theorem c2_witness :
    ¬ ((List.length [(0 : ℚ), 1]) ∣ (List.length [(0 : ℚ), 1, 2, 3, 4])) ∧
    ∃ e, interp_tiepoints
      ⟨[0, 1], [0, 1], [[.fin 1, .fin 2], [.fin 3, .fin 4]]⟩
      [0, 1, 2, 3, 4] [0, 1] = .error e :=
  ⟨by decide,
    c2_x_mismatch_fails ⟨[0, 1], [0, 1], [[.fin 1, .fin 2], [.fin 3, .fin 4]]⟩
      [0, 1, 2, 3, 4] [0, 1] (by decide)⟩

theorem length_flatMap_replicate {α : Type} (reps : ℕ) (l : List α) :
    (l.flatMap (List.replicate reps)).length = l.length * reps := by
  induction l with
  | nil => simp
  | cons a t ih =>
    simp only [List.flatMap_cons, List.length_append, List.length_replicate,
      List.length_cons, ih]
    ring

theorem reindex_flatMap_replicate (reps : ℕ) :
    ∀ (y : List ℚ) (vs : List FpVal), y.Nodup → y.length = vs.length →
      (y.flatMap (List.replicate reps)).map
        (fun lbl => (lookupQ lbl (y.zip vs)).getD .nan) =
      vs.flatMap (List.replicate reps) := by
  intro y
  induction y with
  | nil =>
    intro vs _ hlen
    cases vs with
    | nil => rfl
    | cons v vs' => simp at hlen
  | cons a y' ih =>
    intro vs hnd hlen
    cases vs with
    | nil => simp at hlen
    | cons v vs' =>
      rw [List.flatMap_cons, List.map_append, List.flatMap_cons]
      congr 1
      · rw [List.map_replicate]
        simp [lookupQ]
      · have hstep : ∀ lbl ∈ y'.flatMap (List.replicate reps),
            (lookupQ lbl ((a :: y').zip (v :: vs'))).getD .nan =
            (lookupQ lbl (y'.zip vs')).getD .nan := by
          intro lbl hmem
          have hl : lbl ∈ y' := by
            rcases List.mem_flatMap.mp hmem with ⟨b, hb, hlbl⟩
            rcases List.eq_of_mem_replicate hlbl with rfl
            exact hb
          have hne : lbl ≠ a := by
            intro h
            exact (List.nodup_cons.mp hnd).1 (h ▸ hl)
          rw [List.zip_cons_cons, lookupQ, if_neg hne]
        rw [List.map_congr_left hstep]
        exact ih vs' (List.nodup_cons.mp hnd).2 (by simpa using hlen)

theorem interp_acq_time_upsample (t2d : TimeGrid) (target : List ℚ)
    (hwf : t2d.vals.length = t2d.yc.length) (hnd : t2d.yc.Nodup)
    (hdvd : t2d.yc.length ∣ target.length)
    (hlt : t2d.yc.length < target.length) :
    interp_acq_time t2d target =
      .ok ⟨target, (t2d.vals.map rowMean).flatMap
        (List.replicate (target.length / t2d.yc.length))⟩ := by
  have hne : t2d.yc.length ≠ 0 := by
    intro h0
    rcases hdvd with ⟨k, hk⟩
    rw [h0, zero_mul] at hk
    omega
  simp only [interp_acq_time]
  rw [if_pos hlt, if_neg hne, if_neg (not_not_intro hnd)]
  have hvals : ((t2d.yc.flatMap
        (List.replicate (target.length / t2d.yc.length))).map
      (fun lbl => (lookupQ lbl (t2d.yc.zip (t2d.vals.map rowMean))).getD
        .nan)) =
      (t2d.vals.map rowMean).flatMap
        (List.replicate (target.length / t2d.yc.length)) :=
    reindex_flatMap_replicate _ _ _ hnd (by simpa using hwf.symm)
  rw [hvals]
  have hlen : ((t2d.vals.map rowMean).flatMap
      (List.replicate (target.length / t2d.yc.length))).length =
      target.length := by
    rw [length_flatMap_replicate, List.length_map, hwf,
      Nat.mul_div_cancel' hdvd]
  rw [if_pos hlen]

theorem interp_acq_time_same_size (t2d : TimeGrid) (target : List ℚ)
    (heq : t2d.yc.length = target.length) :
    interp_acq_time t2d target = .ok ⟨t2d.yc, t2d.vals.map rowMean⟩ := by
  simp only [interp_acq_time]
  rw [if_neg (by omega)]

/-- C6: when the reduced per-scanline series divides the target length, a
strictly longer target makes `_interp_acq_time` replicate each timestamp
`target_y.size // series.size` times and relabel with the target
coordinates; equal sizes return the reduced series unchanged; the series
`[t0, t1]` upsampled to a size-4 target yields `[t0, t0, t1, t1]`. -/
theorem c6_acq_time_upsampling :
    ∀ (t2d : TimeGrid) (target : List ℚ),
      t2d.vals.length = t2d.yc.length →
      t2d.yc.Nodup →
      t2d.yc.length ∣ target.length →
      ((t2d.yc.length < target.length →
        interp_acq_time t2d target =
          .ok ⟨target, (t2d.vals.map rowMean).flatMap
            (List.replicate (target.length / t2d.yc.length))⟩) ∧
       (t2d.yc.length = target.length →
        interp_acq_time t2d target = .ok ⟨t2d.yc, t2d.vals.map rowMean⟩)) ∧
      interp_acq_time ⟨[0, 1], [[.fin 5], [.fin 7]]⟩ [10, 11, 12, 13] =
        .ok ⟨[10, 11, 12, 13], [.fin 5, .fin 5, .fin 7, .fin 7]⟩ := by
  intro t2d target hwf hnd hdvd
  refine ⟨⟨fun hlt => interp_acq_time_upsample t2d target hwf hnd hdvd hlt,
    fun heq => interp_acq_time_same_size t2d target heq⟩, ?_⟩
  have h1 := interp_acq_time_upsample ⟨[0, 1], [[.fin 5], [.fin 7]]⟩
    [10, 11, 12, 13] rfl (by decide) (by decide) (by decide)
  rw [h1]
  norm_num [rowMean, fadd, fdiv, List.flatMap_cons, List.replicate]

/-- C6 witness: a target the same size as the reduced series returns the
series unchanged. -/
theorem c6_witness :
    ([0, 1] : List ℚ).Nodup ∧ (2 : ℕ) ∣ 2 ∧
    interp_acq_time ⟨[0, 1], [[.fin 5], [.fin 7]]⟩ [20, 21] =
      .ok ⟨[0, 1], [[.fin 5], [.fin 7]].map rowMean⟩ :=
  ⟨by decide, by decide,
    (c6_acq_time_upsampling ⟨[0, 1], [[.fin 5], [.fin 7]]⟩ [20, 21] rfl
      (by decide) (by decide)).1.2 rfl⟩

/-- A concrete (non-square) file model used by the C10 witness: the
high-resolution image has 4 columns and 2 rows. -/
def nc₀ : NcModel where
  x := [1, 2, 3, 4]
  y := [1, 2]
  x_ir_wv := [5, 6]
  y_ir_wv := [7]
  time2d := ⟨[0, 1], [[.fin 5], [.fin 7]]⟩

/-- C10: `_get_acq_time` takes the upsampling target from the **x**-axis
coordinate vector of the requested resolution class, so the returned
per-scanline series has the length of the image's x-dimension; it equals
the y-dimension length (one timestamp per scanline) iff the image is
square. -/
theorem c10_acq_time_x_axis_target :
    ∀ (nc : NcModel) (resolution : ℚ),
      nc.time2d.vals.length = nc.time2d.yc.length →
      nc.time2d.yc.Nodup →
      nc.time2d.yc.length ∣
        (if is_high_resol resolution then nc.x else nc.x_ir_wv).length →
      nc.time2d.yc.length ≤
        (if is_high_resol resolution then nc.x else nc.x_ir_wv).length →
      (get_acq_time nc resolution =
        interp_acq_time nc.time2d
          (if is_high_resol resolution then nc.x else nc.x_ir_wv)) ∧
      ∃ out, get_acq_time nc resolution = .ok out ∧
        out.vals.length =
          (if is_high_resol resolution then nc.x else nc.x_ir_wv).length ∧
        (out.vals.length =
            (if is_high_resol resolution then nc.y else nc.y_ir_wv).length ↔
          (if is_high_resol resolution then nc.x else nc.x_ir_wv).length =
            (if is_high_resol resolution then nc.y else nc.y_ir_wv).length)
      := by
  intro nc res hwf hnd hdvd hle
  refine ⟨rfl, ?_⟩
  rcases lt_or_eq_of_le hle with hlt | heq2
  · have h1 := interp_acq_time_upsample nc.time2d
      (if is_high_resol res then nc.x else nc.x_ir_wv) hwf hnd hdvd hlt
    have hlen : ((nc.time2d.vals.map rowMean).flatMap
        (List.replicate
          ((if is_high_resol res then nc.x else nc.x_ir_wv).length /
            nc.time2d.yc.length))).length =
        (if is_high_resol res then nc.x else nc.x_ir_wv).length := by
      rw [length_flatMap_replicate, List.length_map, hwf,
        Nat.mul_div_cancel' hdvd]
    refine ⟨_, h1, hlen, ?_⟩
    rw [hlen]
  · have h1 := interp_acq_time_same_size nc.time2d
      (if is_high_resol res then nc.x else nc.x_ir_wv) heq2
    have hlen : (nc.time2d.vals.map rowMean).length =
        (if is_high_resol res then nc.x else nc.x_ir_wv).length := by
      rw [List.length_map, hwf, heq2]
    refine ⟨_, h1, hlen, ?_⟩
    rw [hlen]

/-- C10 witness: on a non-square high-resolution image (4 columns, 2 rows)
the acquisition-time series has length 4, the x-dimension size, not the
number of scanlines. -/
theorem c10_witness :
    is_high_resol 2250 = true ∧
    ∃ out, get_acq_time nc₀ 2250 = .ok out ∧ out.vals.length = 4 ∧
      nc₀.y.length = 2 := by
  obtain ⟨out, h1, h2, -⟩ :=
    (c10_acq_time_x_axis_target nc₀ 2250 rfl (by decide) (by decide)
      (by decide)).2
  refine ⟨by decide, out, h1, ?_, rfl⟩
  rw [h2]
  decide
